import Mathlib

/-!
Verification of the authentication and authorization subsystem:
token pipeline (`app/services/request/auth.py`), permission and scope model
(`app/services/permissions.py`), and signin validators
(`app/services/validators/user.py`).

Python strings are embedded as `String`; `str.split(sep)` for the single-char
separator used by the scope model is embedded character-by-character
(`splitCh` / `pySplit`), and `sep.join` as `pyJoin`, matching Python semantics
(`"".split(",") == [""]`, trailing separators produce empty fields).
-/

namespace Spec2Proof

/-- Character-level embedding of Python `str.split(",")`: splits a character
list at every comma; the empty list yields one empty field. -/
def splitCh : List Char → List (List Char)
  | [] => [[]]
  | c :: t =>
    if c = ',' then [] :: splitCh t
    else
      match splitCh t with
      | [] => [[c]]
      | h :: r => (c :: h) :: r

/-- Embedding of Python `scope.split(",")` on `String`. -/
def pySplit (s : String) : List String :=
  (splitCh s.data).map (fun l => ⟨l⟩)

/-- Embedding of Python `sep.join(parts)`. -/
def pyJoin (sep : String) : List String → String
  | [] => ""
  | [x] => x
  | x :: xs => x ++ sep ++ pyJoin sep xs

namespace authapi

/-- Permission enumeration of `auth-api/app/services/permissions.py`
(its only member is `oauth_clients`). -/
inductive Permission where
  | oauth_clients
deriving DecidableEq, Repr

/-- Enum `.value` accessor of the `Permission` enumeration. -/
def Permission.value : Permission → String
  | .oauth_clients => "oauth_clients"

/-- Enum name lookup `Permission[name]` restricted to defined members
(the source only applies it to names it already checked against
`SCOPE_ALLOWED_PERMISSIONS`, so the lookup never raises there). -/
def Permission.fromName : String → Option Permission
  | "oauth_clients" => some Permission.oauth_clients
  | _ => none

/-- Scope separator constant of the source file. -/
def SCOPE_PERMISSION_SEPARATOR : String := ","

/-- Allowed permission names constant of the source file. -/
def SCOPE_ALLOWED_PERMISSIONS : List String :=
  [Permission.oauth_clients].map Permission.value

/-- Embedding of `parse_permissions_from_scope` from
`auth-api/app/services/permissions.py`: the comprehension
`[Permission[p] for p in scope.split(SEP) if p in ALLOWED and p]`
as a filter of the split followed by the (always succeeding) name lookup. -/
def parse_permissions_from_scope (scope : String) : List Permission :=
  ((pySplit scope).filter
    (fun p => decide (p ∈ SCOPE_ALLOWED_PERMISSIONS) && !(p == ""))).filterMap
    Permission.fromName

/-- Embedding of `normalize_scope` from the same file:
`SEP.join([p.value for p in parse_permissions_from_scope(scope)])`. -/
def normalize_scope (scope : String) : String :=
  pyJoin SCOPE_PERMISSION_SEPARATOR
    ((parse_permissions_from_scope scope).map Permission.value)

end authapi

/- Supporting lemmas about the split/join embedding. -/

theorem splitCh_ne_nil (l : List Char) : splitCh l ≠ [] := by
  induction l with
  | nil => simp [splitCh]
  | cons c t ih =>
    simp only [splitCh]
    split
    · simp
    · match h : splitCh t with
      | [] => simp
      | a :: r => simp

theorem splitCh_comma_free (l : List Char) (h : ',' ∉ l) : splitCh l = [l] := by
  induction l with
  | nil => rfl
  | cons c t ih =>
    simp only [List.mem_cons, not_or] at h
    obtain ⟨hc, ht⟩ := h
    simp only [splitCh]
    rw [if_neg (fun hcc => hc hcc.symm)]
    rw [ih ht]

theorem splitCh_append (l t : List Char) (h : ',' ∉ l) :
    splitCh (l ++ ',' :: t) = l :: splitCh t := by
  induction l with
  | nil => simp [splitCh]
  | cons c l2 ih =>
    simp only [List.mem_cons, not_or] at h
    obtain ⟨hc, hl⟩ := h
    simp only [List.cons_append, splitCh]
    rw [if_neg (fun hcc => hc hcc.symm)]
    simp only [List.append_eq]
    rw [ih hl]

theorem pySplit_comma_append (a r : String) (h : ',' ∉ a.data) :
    pySplit (a ++ "," ++ r) = a :: pySplit r := by
  unfold pySplit
  have hd : (a ++ "," ++ r).data = a.data ++ ',' :: r.data := by
    simp only [String.data_append]
    show a.data ++ [','] ++ r.data = _
    simp
  rw [hd, splitCh_append _ _ h]
  rfl

theorem filterMap_fromName_all (m : List String) (h : ∀ p ∈ m, p = "oauth_clients") :
    m.filterMap authapi.Permission.fromName
      = m.map (fun _ => authapi.Permission.oauth_clients) := by
  induction m with
  | nil => rfl
  | cons p t ih =>
    have hp := h p (by simp)
    subst hp
    simp only [List.filterMap_cons, List.map_cons]
    rw [show authapi.Permission.fromName "oauth_clients"
          = some authapi.Permission.oauth_clients from rfl]
    rw [ih (fun q hq => h q (by simp [hq]))]

theorem mem_filter_scope_guard (l : List String) (p : String)
    (h : p ∈ l.filter
      (fun q => decide (q ∈ authapi.SCOPE_ALLOWED_PERMISSIONS) && !(q == ""))) :
    p = "oauth_clients" := by
  have := List.of_mem_filter h
  have hmem : p ∈ authapi.SCOPE_ALLOWED_PERMISSIONS := by
    simp only [Bool.and_eq_true, decide_eq_true_eq] at this
    exact this.1
  simpa [authapi.SCOPE_ALLOWED_PERMISSIONS, authapi.Permission.value] using hmem

theorem parse_eq_filter_map (s : String) :
    authapi.parse_permissions_from_scope s
      = ((pySplit s).filter
          (fun q => decide (q ∈ authapi.SCOPE_ALLOWED_PERMISSIONS) && !(q == ""))).map
          (fun _ => authapi.Permission.oauth_clients) := by
  unfold authapi.parse_permissions_from_scope
  exact filterMap_fromName_all _ (fun p hp => mem_filter_scope_guard _ p hp)

theorem parse_pyJoin_map_value (L : List authapi.Permission) :
    authapi.parse_permissions_from_scope
      (pyJoin "," (L.map authapi.Permission.value)) = L := by
  induction L with
  | nil => decide
  | cons p t ih =>
    cases p
    cases t with
    | nil => decide
    | cons q t2 =>
      have hjoin : pyJoin ","
          ((authapi.Permission.oauth_clients :: q :: t2).map authapi.Permission.value)
          = "oauth_clients" ++ "," ++ pyJoin "," ((q :: t2).map authapi.Permission.value) :=
        rfl
      rw [hjoin]
      unfold authapi.parse_permissions_from_scope
      rw [pySplit_comma_append _ _ (by decide)]
      simp only [List.filter_cons, List.filterMap_cons]
      rw [show (decide ("oauth_clients" ∈ authapi.SCOPE_ALLOWED_PERMISSIONS)
            && !("oauth_clients" == "")) = true from by decide]
      simp only [if_true]
      simp only [List.filterMap_cons]
      rw [show authapi.Permission.fromName "oauth_clients"
            = some authapi.Permission.oauth_clients from rfl]
      unfold authapi.parse_permissions_from_scope at ih
      rw [ih]

/-- C3 (counterexample): `parse_permissions_from_scope` does NOT remove
duplicates: the scope string listing `oauth_clients` twice parses to a
two-element list, so the result is not duplicate-free as the claim states. -/
theorem c3_counterexample_parse_keeps_duplicates :
    authapi.parse_permissions_from_scope "oauth_clients,oauth_clients"
      = [authapi.Permission.oauth_clients, authapi.Permission.oauth_clients]
    ∧ ¬ (authapi.parse_permissions_from_scope "oauth_clients,oauth_clients").Nodup := by
  constructor
  · decide
  · decide

/-- C3 (amended): for every scope string `s`, `parse_permissions_from_scope s`
splits `s` on the comma separator, keeps exactly the recognized non-empty
tokens in first-seen order WITH multiplicity (duplicates are preserved, not
removed), maps each to its enumerated permission, and never raises (it is a
total function); in particular parsing `"oauth_clients,bogus,"` yields exactly
`[oauth_clients]`. -/
theorem c3_parse_permissions_from_scope_spec (s : String) :
    authapi.parse_permissions_from_scope s
      = ((pySplit s).filter
          (fun q => decide (q ∈ authapi.SCOPE_ALLOWED_PERMISSIONS) && !(q == ""))).map
          (fun _ => authapi.Permission.oauth_clients)
    ∧ authapi.parse_permissions_from_scope "oauth_clients,bogus,"
      = [authapi.Permission.oauth_clients] := by
  refine ⟨parse_eq_filter_map s, by decide⟩

/-- C8: `normalize_scope` is the canonical inverse join of scope parsing:
it equals the comma-join of the names of the parsed permissions, parsing its
output yields the same permission list as parsing the input, and it is
idempotent. -/
theorem c8_normalize_scope_canonical (s : String) :
    authapi.normalize_scope s
      = pyJoin "," ((authapi.parse_permissions_from_scope s).map
          authapi.Permission.value)
    ∧ authapi.parse_permissions_from_scope (authapi.normalize_scope s)
      = authapi.parse_permissions_from_scope s
    ∧ authapi.normalize_scope (authapi.normalize_scope s)
      = authapi.normalize_scope s := by
  refine ⟨rfl, ?_, ?_⟩
  · exact parse_pyJoin_map_value _
  · show pyJoin "," _ = _
    rw [show authapi.normalize_scope s
          = pyJoin "," ((authapi.parse_permissions_from_scope s).map
              authapi.Permission.value) from rfl]
    rw [parse_pyJoin_map_value]

namespace api

/-- Modelled from the spec: the permission enumeration of the main API
service (`api/app/services/permissions.py` is not in the sources; its members
`noexpire`, `admin` and `oauth_clients` are witnessed by the pipeline and the
admin router, the names follow the spec's capability descriptions). -/
inductive Permission where
  | oauth_clients
  | noexpire
  | admin
deriving DecidableEq, Repr

/-- Enum `.value` accessor of the modelled API-side permission enumeration. -/
def Permission.value : Permission → String
  | .oauth_clients => "oauth_clients"
  | .noexpire => "noexpire"
  | .admin => "admin"

/-- Enum name lookup for the modelled API-side permission enumeration. -/
def Permission.fromName : String → Option Permission
  | "oauth_clients" => some Permission.oauth_clients
  | "noexpire" => some Permission.noexpire
  | "admin" => some Permission.admin
  | _ => none

/-- Allowed permission names of the modelled API-side scope model. -/
def SCOPE_ALLOWED_PERMISSIONS : List String :=
  [Permission.oauth_clients, Permission.noexpire, Permission.admin].map
    Permission.value

/-- Modelled from the spec: API-side `parse_permissions_from_scope` (the
module is not in the sources): splits on the comma separator, maps each
non-empty recognized token to its enumerated permission, silently ignores
unrecognized tokens, preserves first-seen order, never raises. -/
def parse_permissions_from_scope (scope : String) : List Permission :=
  ((pySplit scope).filter
    (fun p => decide (p ∈ SCOPE_ALLOWED_PERMISSIONS) && !(p == ""))).filterMap
    Permission.fromName

end api

/-- Error codes of `ApiErrorCode` used by the authentication core
(`app/services/api/errors.py` is external; only the constructors that the
sources reference are modelled). -/
inductive ApiErrorCode where
  | AUTH_REQUIRED
  | AUTH_INVALID_TOKEN
  | AUTH_EXPIRED_TOKEN
  | AUTH_INSUFFICIENT_PERMISSIONS
  | USER_DEACTIVATED
  | AUTH_INVALID_CREDENTIALS
  | AUTH_SUSPICIOUS_CLIENT
deriving DecidableEq, Repr

/-- Payload of an `ApiErrorException`: stable code, human message, optional
structured data (here the only datum the claims need, `required_scope`). -/
structure ApiError where
  api_code : ApiErrorCode
  message : String
  data : Option (String × String) := none
deriving DecidableEq, Repr

/-- Exception classes raised by the decode layer
(`app/tokens/exceptions.py`), distinct from `ApiErrorException`. -/
inductive TokenError where
  | invalid
  | wrongType
  | expired
  | invalidSignature
deriving DecidableEq, Repr

/-- Exceptions that can escape the authentication pipeline: an
`ApiErrorException`, a token-codec exception, or a `ValueError`. -/
inductive Err where
  | apiError (e : ApiError)
  | tokenError (e : TokenError)
  | valueError (msg : String)
deriving DecidableEq, Repr

deriving instance DecidableEq for Except

/-- Python value embedded for the token payload session id, which the
pipeline checks with `isinstance(session_id, int)`. -/
inductive PyVal where
  | vint (n : Int)
  | vstr (s : String)
  | vnone
deriving DecidableEq, Repr

/-- Result of `isinstance(v, int)` on an embedded Python value. -/
def PyVal.isInt : PyVal → Bool
  | .vint _ => true
  | _ => false

/-- Modelled from the spec: payload fields of a token
(`app/tokens/base_token.py` and the per-kind classes are not in the
sources; fields follow the spec's data model). -/
structure TokenPayload where
  issuer : String
  subject : Int
  session_id : PyVal
  scope : String
  typ : String
  issued_at : Int
  expires_at : Int
deriving DecidableEq, Repr

/-- Modelled from the spec: an encoded token string as the decoder sees it:
either the empty string, or a string that structurally parses (or not) to a
payload and carries the key it was signed with. -/
inductive TokenStr where
  | empty
  | str (parseOk : Bool) (payload : TokenPayload) (sigKey : String)
deriving DecidableEq, Repr

/-- Decoded token object: payload plus the result of signature
verification (`signature_is_valid`). -/
structure Token where
  payload : TokenPayload
  sig_valid : Bool
deriving DecidableEq, Repr

/-- Accessor `get_subject` of a decoded token. -/
def Token.get_subject (t : Token) : Int := t.payload.subject

/-- Accessor `get_session_id` of a decoded token. -/
def Token.get_session_id (t : Token) : PyVal := t.payload.session_id

/-- Accessor `get_scope` of a decoded token. -/
def Token.get_scope (t : Token) : String := t.payload.scope

/-- Accessor `get_type` of a decoded token. -/
def Token.get_type (t : Token) : String := t.payload.typ

/-- Accessor `signature_is_valid` of a decoded token. -/
def Token.signature_is_valid (t : Token) : Bool := t.sig_valid

/-- Token kinds (`AccessToken`, `SessionToken`, ...); the pipeline only
instantiates access and session. -/
inductive TokenType where
  | access
  | session
  | refresh
  | oauth_code
  | email
deriving DecidableEq, Repr

/-- Class method `get_type` returning the type discriminator tag. -/
def TokenType.tag : TokenType → String
  | .access => "access"
  | .session => "session"
  | .refresh => "refresh"
  | .oauth_code => "oauth_code"
  | .email => "email"

/-- Modelled from the spec: `decode_unsigned` of the token codec; enforces,
in order, structural parse, type discriminator, expiration; does not verify
the signature (`signature_is_valid` of the result is false, as the unit test
of the codec shows). -/
def TokenType.decode_unsigned (tt : TokenType) (t : TokenStr) (now : Int) :
    Except Err Token :=
  match t with
  | .empty => .error (.tokenError .invalid)
  | .str parseOk payload _ =>
    if !parseOk then .error (.tokenError .invalid)
    else if payload.typ ≠ tt.tag then .error (.tokenError .wrongType)
    else if payload.expires_at < now then .error (.tokenError .expired)
    else .ok { payload := payload, sig_valid := false }

/-- Modelled from the spec: keyed `decode` of the token codec; performs the
same structural, type and expiration checks, then reports whether the
recomputed signature under `key` matches (the decoded token is returned
either way, with `signature_is_valid` carrying the outcome). -/
def TokenType.decode (tt : TokenType) (t : TokenStr) (key : String)
    (now : Int) : Except Err Token :=
  match t with
  | .empty => .error (.tokenError .invalid)
  | .str parseOk payload sigKey =>
    if !parseOk then .error (.tokenError .invalid)
    else if payload.typ ≠ tt.tag then .error (.tokenError .wrongType)
    else if payload.expires_at < now then .error (.tokenError .expired)
    else .ok { payload := payload, sig_valid := key == sigKey }

/-- Session record (`app/database/models/user_session.py`): id, owner user
id, per-session signing secret, active flag, and the device signal the
client-fingerprint check compares against. -/
structure UserSession where
  id : Int
  owner_id : Int
  token_secret : String
  is_active : Bool
  device_signal : String
deriving DecidableEq, Repr

/-- User record: the fields the authentication core reads. -/
structure User where
  id : Int
  password : String
  is_active : Bool
deriving DecidableEq, Repr

/-- External store state: session rows and user rows. -/
structure DB where
  sessions : List UserSession
  users : List User
deriving DecidableEq, Repr

/-- Request: token transport locations (`Authorization` header,
`access_token` and `session_token` query parameters) plus the originating
client signal used by the suspicious-device check. -/
structure Request where
  authorization_header : Option TokenStr
  access_token_param : Option TokenStr
  session_token_param : Option TokenStr
  signal : String
deriving DecidableEq, Repr

/-- Embedding of `dict.get(key, "")`: the stored token string or the empty
token. -/
def pyGet (o : Option TokenStr) : TokenStr := o.getD .empty

/-- Embedding of Python `a or b` on token strings (the empty string is
falsy). -/
def pyOrTok (a b : TokenStr) : TokenStr := if a = .empty then b else a

/-- Authentication context DTO (`app/services/request/auth_data.py`):
verified token, resolved session, computed permissions; the user is attached
by `_query_auth_data`. -/
structure AuthData where
  token : Token
  session : UserSession
  permissions : List api.Permission
  user : Option User := none
deriving DecidableEq, Repr

/-- Observable store and collaborator interactions of one pipeline run,
recorded in order: the unsigned decode, the session lookup by id, the
suspicious-client check, the keyed (signed) decode, the user lookup by id,
and the online-timestamp commit. -/
inductive Effect where
  | unsignedDecode
  | sessionLookup (sid : Int)
  | clientCheck (sid : Int)
  | signedDecode
  | userLookup (uid : Int)
  | commitOnline (uid : Int)
deriving DecidableEq, Repr

/-- Error value raised by `_raise_integrity_check_error`: note that it is an
ordinary `ApiErrorException` with code `AUTH_INVALID_TOKEN`. -/
def integrity_check_api_error : ApiError :=
  { api_code := .AUTH_INVALID_TOKEN,
    message := "Authentication system integrity check failed!" }

/-- Error raised when the resolved session is no longer active. -/
def session_closed_api_error : ApiError :=
  { api_code := .AUTH_INVALID_TOKEN,
    message := "Token is not usable as session was closed!" }

/-- Error raised when the signed decode yields an invalid signature. -/
def invalid_signature_api_error : ApiError :=
  { api_code := .AUTH_INVALID_TOKEN,
    message := "Unable to validate signature of the token!" }

/-- Error raised when the extracted token is empty. -/
def auth_required_api_error : ApiError :=
  { api_code := .AUTH_REQUIRED, message := "Authentication required!" }

/-- Error raised for a deactivated user when the caller did not opt in. -/
def user_deactivated_api_error : ApiError :=
  { api_code := .USER_DEACTIVATED,
    message := "User account currently deactivated and this method does not allow deactivated users!" }

/-- Error raised by signin validation for a missing user or a wrong
password. -/
def invalid_credentials_api_error : ApiError :=
  { api_code := .AUTH_INVALID_CREDENTIALS,
    message := "Invalid credentials for authentication." }

/-- Modelled from the spec: error raised by the external client-fingerprint
checker on a mismatched device signal. -/
def suspicious_client_api_error : ApiError :=
  { api_code := .AUTH_SUSPICIOUS_CLIENT,
    message := "Suspicious client mismatch." }

/-- Error built for unsatisfied required permissions, carrying the joined
unsatisfied scope both in the message and in the `required_scope` datum. -/
def insufficient_permissions_api_error (unsatisfied : List api.Permission) :
    ApiError :=
  let required_scope := pyJoin ", " (unsatisfied.map api.Permission.value)
  { api_code := .AUTH_INSUFFICIENT_PERMISSIONS,
    message := "Insufficient permissions to call this method! (required scope permissions: "
      ++ required_scope ++ ")",
    data := some ("required_scope", required_scope) }

/-- Modelled from the spec: `session_check_client_by_request` (external
collaborator, `app/services/request/session_check_client.py` is not in the
sources): compares the originating client signal of the request against the
device signal recorded on the session, failing with a suspicious-client
error on mismatch. -/
def session_check_client_by_request (session : UserSession) (request : Request) :
    Except Err Unit :=
  if request.signal ≠ session.device_signal then
    .error (.apiError suspicious_client_api_error)
  else .ok ()

/-- Embedding of `_query_scope_permissions` from
`app/services/request/auth.py`: parses the held permissions from the scope,
returns them when nothing is required (Python treats `None` and the empty
list the same way here), otherwise filters the required list down to the
unsatisfied ones (order of the required list preserved) and raises
`AUTH_INSUFFICIENT_PERMISSIONS` when any remain. The single-permission
overload of the source collapses to the list case and is not modelled
separately. -/
def _query_scope_permissions (scope : String)
    (required_permissions : Option (List api.Permission)) :
    Except Err (List api.Permission) :=
  let permissions := api.parse_permissions_from_scope scope
  match required_permissions with
  | none => .ok permissions
  | some required =>
    if required = [] then .ok permissions
    else
      let unsatisfied_permissions :=
        required.filter (fun permission => decide (permission ∉ permissions))
      if unsatisfied_permissions = [] then .ok permissions
      else .error (.apiError
        (insufficient_permissions_api_error unsatisfied_permissions))

/-- Embedding of `_query_session_from_sid` from
`app/services/request/auth.py`: integrity failure on a non-integer session
id or a missing session row, closed-session error on an inactive session,
then the suspicious-client check unless external clients are allowed or no
request object is available. The second component records the store and
collaborator interactions in order. -/
def _query_session_from_sid (session_id : PyVal) (db : DB)
    (request : Option Request) (allow_external_clients : Bool) :
    Except Err UserSession × List Effect :=
  match session_id with
  | .vint sid =>
    match db.sessions.find? (fun s => s.id == sid) with
    | none => (.error (.apiError integrity_check_api_error),
        [.sessionLookup sid])
    | some session =>
      if session.is_active = false then
        (.error (.apiError session_closed_api_error), [.sessionLookup sid])
      else
        match request with
        | some r =>
          if allow_external_clients = false then
            match session_check_client_by_request session r with
            | .error e => (.error e, [.sessionLookup sid, .clientCheck sid])
            | .ok _ => (.ok session, [.sessionLookup sid, .clientCheck sid])
          else (.ok session, [.sessionLookup sid])
        | none => (.ok session, [.sessionLookup sid])
  | _ => (.error (.apiError integrity_check_api_error), [])

/-- Embedding of `_query_auth_data` from `app/services/request/auth.py`:
looks the user up by the token subject, raises the integrity error when the
user is missing or the session owner differs, raises `USER_DEACTIVATED` for
an inactive user unless allowed, commits the online timestamp when the
trigger flag is set, and attaches the user to the DTO. -/
def _query_auth_data (auth_data : AuthData) (db : DB)
    (allow_deactivated : Bool) (trigger_online_update : Bool) :
    Except Err AuthData × List Effect :=
  let user_id := auth_data.token.get_subject
  match db.users.find? (fun u => u.id == user_id) with
  | none => (.error (.apiError integrity_check_api_error),
      [.userLookup user_id])
  | some user =>
    if auth_data.session.owner_id ≠ user.id then
      (.error (.apiError integrity_check_api_error), [.userLookup user_id])
    else if user.is_active = false ∧ allow_deactivated = false then
      (.error (.apiError user_deactivated_api_error), [.userLookup user_id])
    else if trigger_online_update then
      (.ok { auth_data with user := some user },
        [.userLookup user_id, .commitOnline user_id])
    else (.ok { auth_data with user := some user }, [.userLookup user_id])

/-- Embedding of `_decode_token` from `app/services/request/auth.py`:
rejects token types other than access and session with a `ValueError`,
raises `AUTH_REQUIRED` on an empty token, decodes unsigned, computes held
permissions from the scope (access tokens only) enforcing required ones,
computes the effective external-clients flag from the `noexpire` capability,
resolves the session, re-decodes keyed by the session secret and escalates
an invalid signature to `AUTH_INVALID_TOKEN`. -/
def _decode_token (token : TokenStr) (token_type : TokenType) (db : DB)
    (required_permissions : Option (List api.Permission))
    (request : Option Request) (allow_external_clients : Bool) (now : Int) :
    Except Err AuthData × List Effect :=
  if token_type ≠ .access ∧ token_type ≠ .session then
    (.error (.valueError
      "Unexpected type of the token type inside decode token step!"), [])
  else if token = .empty then
    (.error (.apiError auth_required_api_error), [])
  else
    match token_type.decode_unsigned token now with
    | .error e => (.error e, [.unsignedDecode])
    | .ok unsigned_token =>
      let scope :=
        if token_type.tag = "access" then unsigned_token.get_scope else ""
      match _query_scope_permissions scope required_permissions with
      | .error e => (.error e, [.unsignedDecode])
      | .ok permissions =>
        let allow_external_clients :=
          if allow_external_clients = false then
            decide (api.Permission.noexpire ∈ permissions)
          else true
        match _query_session_from_sid unsigned_token.get_session_id db
            request allow_external_clients with
        | (.error e, tr) => (.error e, .unsignedDecode :: tr)
        | (.ok session, tr) =>
          match token_type.decode token session.token_secret now with
          | .error e =>
            (.error e, .unsignedDecode :: tr ++ [.signedDecode])
          | .ok signed_token =>
            if signed_token.signature_is_valid = false then
              (.error (.apiError invalid_signature_api_error),
                .unsignedDecode :: tr ++ [.signedDecode])
            else
              (.ok { token := signed_token, session := session,
                     permissions := permissions, user := none },
                .unsignedDecode :: tr ++ [.signedDecode])

/-- Embedding of `query_auth_data_from_token` from
`app/services/request/auth.py`: decodes with the session or access token
type, applies the defensive session-kind re-check, and finalizes via
`_query_auth_data`. -/
def query_auth_data_from_token (token : TokenStr) (db : DB)
    (only_session_token : Bool)
    (required_permissions : Option (List api.Permission))
    (allow_deactivated : Bool) (allow_external_clients : Bool)
    (trigger_online_update : Bool) (request : Option Request) (now : Int) :
    Except Err AuthData × List Effect :=
  let token_type := if only_session_token then TokenType.session
    else TokenType.access
  match _decode_token token token_type db required_permissions request
      allow_external_clients now with
  | (.error e, tr) => (.error e, tr)
  | (.ok auth_data, tr) =>
    if only_session_token = true
        ∧ auth_data.token.get_type ≠ TokenType.session.tag then
      (.error (.apiError integrity_check_api_error), tr)
    else
      match _query_auth_data auth_data db allow_deactivated
          trigger_online_update with
      | (r, tr2) => (r, tr ++ tr2)

/-- Embedding of `_get_token_from_request` from
`app/services/request/auth.py`: session-only mode reads exclusively the
`session_token` query parameter; otherwise the `Authorization` header is
preferred and the `access_token` query parameter is the fallback. -/
def _get_token_from_request (req : Request) (only_session_token : Bool) :
    TokenStr :=
  if only_session_token then pyGet req.session_token_param
  else pyOrTok (pyGet req.authorization_header) (pyGet req.access_token_param)

/-- Embedding of `query_auth_data_from_request` from
`app/services/request/auth.py`. -/
def query_auth_data_from_request (req : Request) (db : DB)
    (only_session_token : Bool)
    (required_permissions : Option (List api.Permission))
    (allow_deactivated : Bool) (allow_external_clients : Bool)
    (trigger_online_update : Bool) (now : Int) :
    Except Err AuthData × List Effect :=
  let token := _get_token_from_request req only_session_token
  query_auth_data_from_token token db only_session_token
    required_permissions allow_deactivated allow_external_clients
    trigger_online_update (some req) now

/-- Embedding of `try_query_auth_data_from_request` from
`app/services/request/auth.py`: wraps the raising pipeline; its `except`
clause catches exactly `ApiErrorException`, so any other exception class
escapes it. -/
def try_query_auth_data_from_request (req : Request) (db : DB)
    (only_session_token : Bool)
    (required_permissions : Option (List api.Permission))
    (allow_deactivated : Bool) (allow_external_clients : Bool) (now : Int) :
    Except Err (Bool × Option AuthData) × List Effect :=
  match query_auth_data_from_request req db only_session_token
      required_permissions allow_deactivated allow_external_clients true
      now with
  | (.ok auth_data, tr) => (.ok (true, some auth_data), tr)
  | (.error (.apiError _), tr) => (.ok (false, none), tr)
  | (.error e, tr) => (.error e, tr)

/-- Embedding of `validate_signin_fields` from
`app/services/validators/user.py`; the opaque external password comparator
is passed as a function argument. -/
def validate_signin_fields (check_password : String → String → Bool)
    (user : Option User) (password : String) : Except Err Unit :=
  match user with
  | none => .error (.apiError invalid_credentials_api_error)
  | some user =>
    if check_password password user.password = false then
      .error (.apiError invalid_credentials_api_error)
    else .ok ()

theorem decode_unsigned_ne_empty {tt : TokenType} {t : TokenStr} {now : Int}
    {u : Token} (hu : tt.decode_unsigned t now = .ok u) : t ≠ .empty := by
  intro h
  subst h
  simp [TokenType.decode_unsigned] at hu

theorem query_scope_permissions_error (scope : String)
    (R : List api.Permission)
    (hne : R.filter (fun p =>
        decide (p ∉ api.parse_permissions_from_scope scope)) ≠ []) :
    _query_scope_permissions scope (some R)
      = .error (.apiError (insufficient_permissions_api_error
          (R.filter (fun p =>
            decide (p ∉ api.parse_permissions_from_scope scope))))) := by
  have hR : R ≠ [] := by
    intro h
    subst h
    simp at hne
  simp only [_query_scope_permissions, if_neg hR, if_neg hne]

theorem decode_token_scope_error (token : TokenStr) (tt : TokenType)
    (db : DB) (rp : Option (List api.Permission)) (req : Option Request)
    (aec : Bool) (now : Int) (u : Token) (e : Err)
    (htt : tt = .access ∨ tt = .session)
    (hu : tt.decode_unsigned token now = .ok u)
    (hs : _query_scope_permissions
        (if tt.tag = "access" then u.get_scope else "") rp = .error e) :
    _decode_token token tt db rp req aec now
      = (.error e, [Effect.unsignedDecode]) := by
  have hne := decode_unsigned_ne_empty hu
  rcases htt with h | h <;> subst h <;>
    simp only [TokenType.tag] at hs <;> simp at hs <;>
    simp only [_decode_token, hu] <;>
    simp [hne, hs, TokenType.tag]

theorem decode_token_unfold (token : TokenStr) (tt : TokenType) (db : DB)
    (rp : Option (List api.Permission)) (req : Option Request) (aec : Bool)
    (now : Int) (u : Token) (P : List api.Permission)
    (htt : tt = .access ∨ tt = .session)
    (hu : tt.decode_unsigned token now = .ok u)
    (hP : _query_scope_permissions
        (if tt.tag = "access" then u.get_scope else "") rp = .ok P) :
    _decode_token token tt db rp req aec now
      = (match _query_session_from_sid u.get_session_id db req
          (if aec = false then decide (api.Permission.noexpire ∈ P)
           else true) with
        | (.error e, tr) => (.error e, .unsignedDecode :: tr)
        | (.ok session, tr) =>
          match tt.decode token session.token_secret now with
          | .error e => (.error e, .unsignedDecode :: tr ++ [.signedDecode])
          | .ok signed_token =>
            if signed_token.signature_is_valid = false then
              (.error (.apiError invalid_signature_api_error),
                .unsignedDecode :: tr ++ [.signedDecode])
            else
              (.ok { token := signed_token, session := session,
                     permissions := P, user := none },
                .unsignedDecode :: tr ++ [.signedDecode])) := by
  have hne := decode_unsigned_ne_empty hu
  rcases htt with h | h <;> subst h <;>
    simp only [TokenType.tag] at hP <;> simp at hP <;>
    simp only [_decode_token, hu] <;>
    simp [hne, hP, TokenType.tag]

theorem session_sid_active_unfold (n : Int) (s : UserSession) (db : DB)
    (req : Option Request) (aec : Bool)
    (hs : db.sessions.find? (fun x => x.id == n) = some s)
    (hact : s.is_active = true) :
    _query_session_from_sid (.vint n) db req aec
      = (match req with
        | some r =>
          if aec = false then
            (match session_check_client_by_request s r with
             | .error e => (.error e, [.sessionLookup n, .clientCheck n])
             | .ok _ => (.ok s, [.sessionLookup n, .clientCheck n]))
          else (.ok s, [.sessionLookup n])
        | none => (.ok s, [.sessionLookup n])) := by
  simp only [_query_session_from_sid, hs, hact]
  simp

theorem clientCheck_mem_session_sid (n : Int) (s : UserSession) (db : DB)
    (req : Option Request) (aec : Bool)
    (hs : db.sessions.find? (fun x => x.id == n) = some s)
    (hact : s.is_active = true) :
    (Effect.clientCheck n ∈ (_query_session_from_sid (.vint n) db req aec).2)
      ↔ (aec = false ∧ req.isSome = true) := by
  rw [session_sid_active_unfold n s db req aec hs hact]
  cases req with
  | none => simp
  | some r =>
    cases aec with
    | false =>
      cases hc : session_check_client_by_request s r <;> simp [hc]
    | true => simp

theorem query_session_ok (sid : PyVal) (db : DB) (req : Option Request)
    (aec : Bool) (s : UserSession) (tr : List Effect)
    (h : _query_session_from_sid sid db req aec = (.ok s, tr)) :
    s.is_active = true ∧ s ∈ db.sessions := by
  unfold _query_session_from_sid at h
  split at h
  case _ n =>
    split at h
    · exact absurd h (by simp)
    · rename_i session hf
      have hmem := List.mem_of_find?_eq_some hf
      split at h
      · exact absurd h (by simp)
      · rename_i hact
        have hact2 : session.is_active = true := by simpa using hact
        split at h
        · split at h
          · split at h
            · exact absurd h (by simp)
            · simp only [Prod.mk.injEq, Except.ok.injEq] at h
              exact h.1 ▸ ⟨hact2, hmem⟩
          · simp only [Prod.mk.injEq, Except.ok.injEq] at h
            exact h.1 ▸ ⟨hact2, hmem⟩
        · simp only [Prod.mk.injEq, Except.ok.injEq] at h
          exact h.1 ▸ ⟨hact2, hmem⟩
  case _ =>
    simp at h

theorem query_auth_data_ok (ad : AuthData) (db : DB)
    (allow_deactivated trigger_online_update : Bool) (a2 : AuthData)
    (tr : List Effect)
    (h : _query_auth_data ad db allow_deactivated trigger_online_update
      = (.ok a2, tr)) :
    ∃ u, a2 = { ad with user := some u } ∧ u ∈ db.users
      ∧ u.id = ad.token.get_subject ∧ ad.session.owner_id = u.id
      ∧ (allow_deactivated = false → u.is_active = true) := by
  simp only [_query_auth_data] at h
  split at h
  · simp at h
  rename_i u hf
  have hmem := List.mem_of_find?_eq_some hf
  have hid : u.id = ad.token.get_subject := by
    have hb := List.find?_some hf
    simpa using hb
  refine ⟨u, ?_⟩
  split at h
  · simp at h
  rename_i howner
  split at h
  · simp at h
  rename_i hdeact
  have hactive : allow_deactivated = false → u.is_active = true := by
    intro hfalse
    by_contra hno
    exact hdeact ⟨by simpa using hno, hfalse⟩
  split at h <;>
    simp only [Prod.mk.injEq, Except.ok.injEq] at h <;>
    exact ⟨h.1.symm, hmem, hid, by simpa using howner, hactive⟩

theorem decode_token_ok (token : TokenStr) (tt : TokenType) (db : DB)
    (rp : Option (List api.Permission)) (req : Option Request) (aec : Bool)
    (now : Int) (a : AuthData)
    (h : (_decode_token token tt db rp req aec now).1 = .ok a) :
    a.session.is_active = true ∧ a.session ∈ db.sessions
      ∧ a.token.signature_is_valid = true ∧ a.user = none := by
  simp only [_decode_token] at h
  split at h
  · simp at h
  split at h
  · simp at h
  split at h
  · simp at h
  rename_i u hu
  split at h
  · simp at h
  rename_i P hP
  split at h
  · simp at h
  rename_i session tr hq
  have hsess := query_session_ok _ _ _ _ _ _ hq
  split at h
  · simp at h
  rename_i st hd
  split at h
  · simp at h
  rename_i hsig
  simp only [Except.ok.injEq] at h
  subst h
  exact ⟨hsess.1, hsess.2, by simpa [Token.signature_is_valid] using hsig, rfl⟩

/-- C1 (counterexample): an integrity failure (here: a non-integer session id)
is reported with the SAME error code (`AUTH_INVALID_TOKEN`) and the same
exception class (`ApiErrorException`) as an ordinary user-facing invalid-token
error (here: a closed session), so the two are NOT distinct in code/class as
the claim states. -/
theorem c1_counterexample_integrity_code_not_distinct :
    (_query_session_from_sid (.vstr "sid") ⟨[], []⟩ none true).1
      = .error (.apiError integrity_check_api_error)
    ∧ (_query_session_from_sid (.vint 1)
        ⟨[⟨1, 7, "k", false, "d"⟩], []⟩ none true).1
      = .error (.apiError session_closed_api_error)
    ∧ integrity_check_api_error.api_code = ApiErrorCode.AUTH_INVALID_TOKEN
    ∧ session_closed_api_error.api_code = ApiErrorCode.AUTH_INVALID_TOKEN
    ∧ integrity_check_api_error.api_code = session_closed_api_error.api_code := by
  refine ⟨rfl, by decide, rfl, rfl, rfl⟩

/-- C1 (amended): every pipeline integrity failure — a non-integer session id
in the token payload, a session lookup that finds no session, a resolved user
that does not exist, or a session owner id different from the resolved user id
— is reported as the same fixed `ApiErrorException` whose code is
`AUTH_INVALID_TOKEN`, i.e. the SAME code as the ordinary user-facing
invalid-token errors; it is distinguishable from them only by its fixed
message text. -/
theorem c1_integrity_failures_share_invalid_token_code :
    (∀ sid db req aec, PyVal.isInt sid = false →
      (_query_session_from_sid sid db req aec).1
        = .error (.apiError integrity_check_api_error))
    ∧ (∀ (n : Int) (db : DB) req aec,
        db.sessions.find? (fun s => s.id == n) = none →
        (_query_session_from_sid (.vint n) db req aec).1
          = .error (.apiError integrity_check_api_error))
    ∧ (∀ (ad : AuthData) (db : DB) b t,
        db.users.find? (fun u => u.id == ad.token.get_subject) = none →
        (_query_auth_data ad db b t).1
          = .error (.apiError integrity_check_api_error))
    ∧ (∀ (ad : AuthData) (db : DB) b t (u : User),
        db.users.find? (fun u => u.id == ad.token.get_subject) = some u →
        ad.session.owner_id ≠ u.id →
        (_query_auth_data ad db b t).1
          = .error (.apiError integrity_check_api_error))
    ∧ integrity_check_api_error.api_code = session_closed_api_error.api_code
    ∧ integrity_check_api_error.api_code = invalid_signature_api_error.api_code
    ∧ integrity_check_api_error.message ≠ session_closed_api_error.message
    ∧ integrity_check_api_error.message ≠ invalid_signature_api_error.message := by
  refine ⟨?_, ?_, ?_, ?_, rfl, rfl, by decide, by decide⟩
  · intro sid db req aec hint
    cases sid <;> simp_all [_query_session_from_sid, PyVal.isInt]
  · intro n db req aec hf
    simp [_query_session_from_sid, hf]
  · intro ad db b t hf
    simp [_query_auth_data, hf]
  · intro ad db b t u hf howner
    simp [_query_auth_data, hf, howner]

/-- Witness for the amended C1: all four integrity-failure sites evaluated at
concrete inputs. -/
theorem c1_integrity_failures_witness :
    (_query_session_from_sid (.vnone) ⟨[], []⟩ none false).1
      = .error (.apiError integrity_check_api_error)
    ∧ (_query_session_from_sid (.vint 5) ⟨[], []⟩ none false).1
      = .error (.apiError integrity_check_api_error)
    ∧ (_query_auth_data
        ⟨⟨⟨"i", 7, .vint 1, "", "access", 0, 9⟩, true⟩,
          ⟨1, 7, "k", true, "d"⟩, [], none⟩ ⟨[], []⟩ false true).1
      = .error (.apiError integrity_check_api_error)
    ∧ (_query_auth_data
        ⟨⟨⟨"i", 7, .vint 1, "", "access", 0, 9⟩, true⟩,
          ⟨1, 8, "k", true, "d"⟩, [], none⟩
        ⟨[], [⟨7, "h", true⟩]⟩ false true).1
      = .error (.apiError integrity_check_api_error) := by
  refine ⟨?_, ?_, ?_, ?_⟩
  · exact c1_integrity_failures_share_invalid_token_code.1 _ _ _ _ (by decide)
  · exact c1_integrity_failures_share_invalid_token_code.2.1 5 _ _ _ (by decide)
  · exact c1_integrity_failures_share_invalid_token_code.2.2.1 _ _ _ _ (by decide)
  · exact c1_integrity_failures_share_invalid_token_code.2.2.2.1 _ _ _ _
      ⟨7, "h", true⟩ (by decide) (by decide)

/-- C4 (counterexample): a decode-layer token failure is NOT reported as
`(False, None)`: for a request carrying a structurally valid but expired
access token, `try_query_auth_data_from_request` propagates the
`TokenExpiredError` exception (it is not an `ApiErrorException`, so the
`except` clause does not catch it) instead of returning the pair. -/
theorem c4_counterexample_token_exception_propagates :
    (try_query_auth_data_from_request
        ⟨some (.str true ⟨"i", 7, .vint 1, "", "access", 0, 0⟩ "k"),
          none, none, "d"⟩
        ⟨[], []⟩ false none false false 1).1
      = .error (.tokenError .expired)
    ∧ (try_query_auth_data_from_request
        ⟨some (.str true ⟨"i", 7, .vint 1, "", "access", 0, 0⟩ "k"),
          none, none, "d"⟩
        ⟨[], []⟩ false none false false 1).1
      ≠ .ok (false, none) := by
  exact ⟨by decide, by decide⟩

/-- C4 (amended): `try_query_auth_data_from_request` reports success as
`(True, auth_data)` and reports every pipeline failure raised as an
`ApiErrorException` as `(False, None)`; decode-layer token exceptions
(structural parse, wrong type, expiry), which are distinct exception
classes, propagate to the caller unchanged. -/
theorem c4_try_query_wraps_api_errors (req : Request) (db : DB)
    (ost : Bool) (rp : Option (List api.Permission)) (ad aec : Bool)
    (now : Int) :
    (∀ a, (query_auth_data_from_request req db ost rp ad aec true now).1
        = .ok a →
      (try_query_auth_data_from_request req db ost rp ad aec now).1
        = .ok (true, some a))
    ∧ (∀ e, (query_auth_data_from_request req db ost rp ad aec true now).1
        = .error (.apiError e) →
      (try_query_auth_data_from_request req db ost rp ad aec now).1
        = .ok (false, none))
    ∧ (∀ e, (query_auth_data_from_request req db ost rp ad aec true now).1
        = .error (.tokenError e) →
      (try_query_auth_data_from_request req db ost rp ad aec now).1
        = .error (.tokenError e)) := by
  refine ⟨?_, ?_, ?_⟩ <;>
    intro x h <;>
    unfold try_query_auth_data_from_request <;>
    rcases hq : query_auth_data_from_request req db ost rp ad aec true now
      with ⟨r, tr⟩ <;>
    rw [hq] at h <;>
    simp only at h <;>
    subst h <;>
    rfl

/-- Witness for the amended C4: the three wrapper behaviours at concrete
inputs (a successful run, an api-error run with an empty token, and a
token-exception run with an expired token). -/
theorem c4_try_query_wraps_api_errors_witness :
    (try_query_auth_data_from_request
        ⟨some (.str true ⟨"i", 7, .vint 1, "", "access", 0, 9⟩ "k"),
          none, none, "d"⟩
        ⟨[⟨1, 7, "k", true, "d"⟩], [⟨7, "h", true⟩]⟩
        false none false false 1).1
      = .ok (true, some
          ⟨⟨⟨"i", 7, .vint 1, "", "access", 0, 9⟩, true⟩,
            ⟨1, 7, "k", true, "d"⟩, [], some ⟨7, "h", true⟩⟩)
    ∧ (try_query_auth_data_from_request ⟨none, none, none, "d"⟩ ⟨[], []⟩
        false none false false 1).1 = .ok (false, none)
    ∧ (try_query_auth_data_from_request
        ⟨some (.str true ⟨"i", 7, .vint 1, "", "access", 0, 0⟩ "k"),
          none, none, "d"⟩
        ⟨[], []⟩ false none false false 1).1
      = .error (.tokenError .expired) := by
  refine ⟨?_, ?_, ?_⟩
  · exact (c4_try_query_wraps_api_errors _ _ _ _ _ _ _).1 _ (by decide)
  · exact (c4_try_query_wraps_api_errors _ _ _ _ _ _ _).2.1
      auth_required_api_error (by decide)
  · exact (c4_try_query_wraps_api_errors _ _ _ _ _ _ _).2.2 .expired (by decide)

/-- C5: the permission check computes the unsatisfied list R minus H
preserving the order of R; when non-empty it raises
`AUTH_INSUFFICIENT_PERMISSIONS` carrying the joined unsatisfied scope in the
`required_scope` datum (for `[oauth_clients]` against an empty held set the
datum is exactly `"oauth_clients"`), and when empty the held permissions are
returned unchanged. -/
theorem c5_permission_check (scope : String) (R : List api.Permission) :
    (_query_scope_permissions scope (some R)
      = if R.filter (fun p =>
            decide (p ∉ api.parse_permissions_from_scope scope)) = []
        then .ok (api.parse_permissions_from_scope scope)
        else .error (.apiError (insufficient_permissions_api_error
          (R.filter (fun p =>
            decide (p ∉ api.parse_permissions_from_scope scope))))))
    ∧ (∀ unsat, (insufficient_permissions_api_error unsat).data
        = some ("required_scope", pyJoin ", " (unsat.map api.Permission.value)))
    ∧ _query_scope_permissions "" (some [api.Permission.oauth_clients])
      = .error (.apiError (insufficient_permissions_api_error
          [api.Permission.oauth_clients]))
    ∧ (insufficient_permissions_api_error [api.Permission.oauth_clients]).data
      = some ("required_scope", "oauth_clients") := by
  refine ⟨?_, fun unsat => rfl, by decide, by decide⟩
  by_cases hR : R = []
  · subst hR
    simp [_query_scope_permissions]
  · simp [_query_scope_permissions, if_neg hR]

/-- C7: signin validation raises the identical `InvalidCredentials` error
(same code, message and data) both for a missing user and for an existing
user whose password does not match, making the two cases observationally
indistinguishable; when the user exists and the password matches it raises
nothing. -/
theorem c7_signin_indistinguishable
    (check_password : String → String → Bool) (p1 p2 : String) (u : User)
    (hwrong : check_password p2 u.password = false) :
    validate_signin_fields check_password none p1
      = .error (.apiError invalid_credentials_api_error)
    ∧ validate_signin_fields check_password (some u) p2
      = .error (.apiError invalid_credentials_api_error)
    ∧ validate_signin_fields check_password none p1
      = validate_signin_fields check_password (some u) p2
    ∧ (∀ u2 p, check_password p u2.password = true →
        validate_signin_fields check_password (some u2) p = .ok ()) := by
  refine ⟨rfl, ?_, ?_, ?_⟩
  · simp [validate_signin_fields, hwrong]
  · simp [validate_signin_fields, hwrong]
  · intro u2 p hok
    simp [validate_signin_fields, hok]

/-- Witness for C7: a concrete comparator, user and passwords. -/
theorem c7_signin_indistinguishable_witness :
    validate_signin_fields (fun p h => p == h) none "x"
      = validate_signin_fields (fun p h => p == h)
          (some ⟨1, "hash", true⟩) "wrong"
    ∧ validate_signin_fields (fun p h => p == h)
        (some ⟨1, "hash", true⟩) "wrong"
      = .error (.apiError invalid_credentials_api_error) := by
  have h := c7_signin_indistinguishable (fun p h => p == h) "x" "wrong"
    ⟨1, "hash", true⟩ (by decide)
  exact ⟨h.2.2.1, h.2.1⟩

/-- C9: token extraction prefers the `Authorization` header, falls back to
the `access_token` query parameter only when the header is absent or empty,
consults exclusively the `session_token` query parameter in
session-token-only mode, and an empty extracted token makes the pipeline
raise `AUTH_REQUIRED` with no decode and no store interaction at all. -/
theorem c9_token_extraction (req : Request) (db : DB) (ost : Bool)
    (rp : Option (List api.Permission)) (ad aec tou : Bool) (now : Int) :
    _get_token_from_request req true = pyGet req.session_token_param
    ∧ (pyGet req.authorization_header ≠ .empty →
        _get_token_from_request req false = pyGet req.authorization_header)
    ∧ (pyGet req.authorization_header = .empty →
        _get_token_from_request req false = pyGet req.access_token_param)
    ∧ (_get_token_from_request req ost = .empty →
        query_auth_data_from_request req db ost rp ad aec tou now
          = (.error (.apiError auth_required_api_error), [])) := by
  refine ⟨rfl, ?_, ?_, ?_⟩
  · intro h
    simp [_get_token_from_request, pyOrTok, h]
  · intro h
    simp [_get_token_from_request, pyOrTok, h]
  · intro h
    unfold query_auth_data_from_request
    rw [h]
    cases ost <;> rfl

/-- Witness for C9: a request with no token locations at all. -/
theorem c9_token_extraction_witness :
    query_auth_data_from_request ⟨none, none, none, "d"⟩ ⟨[], []⟩ false none
        false false true 0
      = (.error (.apiError auth_required_api_error), []) := by
  exact (c9_token_extraction ⟨none, none, none, "d"⟩ ⟨[], []⟩ false none
    false false true 0).2.2.2 rfl

theorem clientCheck_not_mem_query_auth_data (ad : AuthData) (db : DB)
    (b t : Bool) (n : Int) :
    Effect.clientCheck n ∉ (_query_auth_data ad db b t).2 := by
  simp only [_query_auth_data]
  split
  · simp
  split
  · simp
  split
  · simp
  split <;> simp

theorem query_trace_clientCheck_iff (token : TokenStr) (db : DB) (ost : Bool)
    (rp : Option (List api.Permission)) (ad aec tou : Bool)
    (req : Option Request) (now : Int) (n : Int) :
    (Effect.clientCheck n
        ∈ (query_auth_data_from_token token db ost rp ad aec tou req now).2)
      ↔ (Effect.clientCheck n
        ∈ (_decode_token token
            (if ost then TokenType.session else TokenType.access)
            db rp req aec now).2) := by
  simp only [query_auth_data_from_token]
  rcases hd : _decode_token token
      (if ost then TokenType.session else TokenType.access) db rp req aec now
    with ⟨r, tr⟩
  cases r with
  | error e => simp [hd]
  | ok ad0 =>
    simp only [hd]
    split
    · simp
    · rcases hq : _query_auth_data ad0 db ad tou with ⟨r2, tr2⟩
      have hnm := clientCheck_not_mem_query_auth_data ad0 db ad tou n
      rw [hq] at hnm
      simp [hq, List.mem_append, hnm]

theorem decode_trace_clientCheck_iff (token : TokenStr) (tt : TokenType)
    (db : DB) (rp : Option (List api.Permission)) (req : Option Request)
    (aec : Bool) (now : Int) (u : Token) (P : List api.Permission) (n : Int)
    (s : UserSession)
    (htt : tt = .access ∨ tt = .session)
    (hu : tt.decode_unsigned token now = .ok u)
    (hP : _query_scope_permissions
        (if tt.tag = "access" then u.get_scope else "") rp = .ok P)
    (hsid : u.get_session_id = .vint n)
    (hs : db.sessions.find? (fun x => x.id == n) = some s)
    (hact : s.is_active = true) :
    (Effect.clientCheck n ∈ (_decode_token token tt db rp req aec now).2)
      ↔ (aec = false ∧ api.Permission.noexpire ∉ P ∧ req.isSome = true) := by
  rw [decode_token_unfold token tt db rp req aec now u P htt hu hP, hsid,
    session_sid_active_unfold n s db req _ hs hact]
  cases req with
  | none =>
    cases hd2 : tt.decode token s.token_secret now with
    | error e => simp [hd2]
    | ok st =>
      simp only [hd2]
      split <;> simp
  | some r =>
    cases haecv : (if aec = false then decide (api.Permission.noexpire ∈ P)
        else true) with
    | false =>
      have hcond : aec = false ∧ api.Permission.noexpire ∉ P := by
        cases aec <;> simp_all
      simp only [haecv]
      cases hc : session_check_client_by_request s r with
      | error e => simp [hcond]
      | ok v =>
        cases hd2 : tt.decode token s.token_secret now with
        | error e => simp [hd2, hcond]
        | ok st =>
          by_cases hsig : st.signature_is_valid = false <;>
            simp [hd2, hcond, hsig]
    | true =>
      have hcond : ¬(aec = false ∧ api.Permission.noexpire ∉ P) := by
        cases aec <;> simp_all
      simp only [haecv]
      cases hd2 : tt.decode token s.token_secret now with
      | error e => simp [hd2, hcond]
      | ok st =>
        by_cases hsig : st.signature_is_valid = false <;>
          simp [hd2, hcond, hsig]

/-- C2: with the caller not allowing external clients, and the pipeline
reaching an active session (decode, scope check and session lookup
hypotheses), the suspicious-device check is performed exactly when a request
object is supplied and the resolved permission set does not contain the
`noexpire` capability; passing `allow_external_clients = true` or holding
that capability skips it. The skip condition itself is a total boolean
expression, so evaluating it never fails. -/
theorem c2_client_binding_check (token : TokenStr) (db : DB) (ost : Bool)
    (rp : Option (List api.Permission)) (ad aec tou : Bool)
    (req : Option Request) (now : Int) (u : Token)
    (P : List api.Permission) (n : Int) (s : UserSession)
    (hu : (if ost then TokenType.session else TokenType.access).decode_unsigned
        token now = .ok u)
    (hP : _query_scope_permissions (if ost then "" else u.get_scope) rp
        = .ok P)
    (hsid : u.get_session_id = .vint n)
    (hs : db.sessions.find? (fun x => x.id == n) = some s)
    (hact : s.is_active = true) :
    (Effect.clientCheck n
        ∈ (query_auth_data_from_token token db ost rp ad aec tou req now).2)
      ↔ (aec = false ∧ api.Permission.noexpire ∉ P ∧ req.isSome = true) := by
  rw [query_trace_clientCheck_iff]
  cases ost with
  | false =>
    simp only [Bool.false_eq_true, if_false] at hu hP ⊢
    exact decode_trace_clientCheck_iff token .access db rp req aec now u P n s
      (Or.inl rfl) hu (by simpa [TokenType.tag] using hP) hsid hs hact
  | true =>
    simp only [if_true] at hu hP ⊢
    exact decode_trace_clientCheck_iff token .session db rp req aec now u P n s
      (Or.inr rfl) hu (by simpa [TokenType.tag] using hP) hsid hs hact

/-- Witness for C2: a concrete run with a request supplied, external clients
not allowed and no `noexpire` capability performs the client check. -/
theorem c2_client_binding_check_witness :
    Effect.clientCheck 1
      ∈ (query_auth_data_from_token
          (.str true ⟨"i", 7, .vint 1, "", "access", 0, 9⟩ "k")
          ⟨[⟨1, 7, "k", true, "d"⟩], [⟨7, "h", true⟩]⟩ false none false false
          true (some ⟨none, none, none, "d"⟩) 1).2 := by
  exact (c2_client_binding_check
      (.str true ⟨"i", 7, .vint 1, "", "access", 0, 9⟩ "k")
      ⟨[⟨1, 7, "k", true, "d"⟩], [⟨7, "h", true⟩]⟩ false none false false true
      (some ⟨none, none, none, "d"⟩) 1
      ⟨⟨"i", 7, .vint 1, "", "access", 0, 9⟩, false⟩ [] 1
      ⟨1, 7, "k", true, "d"⟩ (by decide) (by decide) (by decide) (by decide)
      (by decide)).mpr (by decide)

/-- C6: when the caller supplies required permissions that the unsigned
token scope does not satisfy, the pipeline stops with
`AUTH_INSUFFICIENT_PERMISSIONS` right after the unsigned decode: the
recorded interaction trace is exactly `[unsignedDecode]` — no session
lookup, no client-binding check, no signed decode and no user lookup happen.
For session tokens the held scope used by this check is the empty scope, so
every required permission is unsatisfied. -/
theorem c6_scope_check_fails_before_session_io (token : TokenStr) (db : DB)
    (req : Option Request) (ad aec tou : Bool) (now : Int) (ost : Bool)
    (R : List api.Permission) (u : Token)
    (hu : (if ost then TokenType.session else TokenType.access).decode_unsigned
        token now = .ok u)
    (hne : R.filter (fun p => decide (p ∉ api.parse_permissions_from_scope
        (if ost then "" else u.get_scope))) ≠ []) :
    query_auth_data_from_token token db ost (some R) ad aec tou req now
      = (.error (.apiError (insufficient_permissions_api_error
          (R.filter (fun p => decide (p ∉ api.parse_permissions_from_scope
            (if ost then "" else u.get_scope)))))),
        [Effect.unsignedDecode]) := by
  cases ost with
  | false =>
    simp only [Bool.false_eq_true, if_false] at hu hne ⊢
    have hscope := query_scope_permissions_error u.get_scope R hne
    have hd := decode_token_scope_error token .access db (some R) req aec now
      u _ (Or.inl rfl) hu (by simpa [TokenType.tag] using hscope)
    simp [query_auth_data_from_token, hd]
  | true =>
    simp only [if_true] at hu hne ⊢
    have hscope := query_scope_permissions_error "" R hne
    have hd := decode_token_scope_error token .session db (some R) req aec now
      u _ (Or.inr rfl) hu (by simpa [TokenType.tag] using hscope)
    simp [query_auth_data_from_token, hd]

/-- Witness for C6: requiring the admin capability with a scope-less access
token fails fast with only the unsigned decode recorded. -/
theorem c6_scope_check_fails_witness :
    query_auth_data_from_token
        (.str true ⟨"i", 7, .vint 1, "", "access", 0, 9⟩ "k") ⟨[], []⟩ false
        (some [api.Permission.admin]) false false true none 1
      = (.error (.apiError (insufficient_permissions_api_error
          [api.Permission.admin])), [Effect.unsignedDecode]) := by
  have h := c6_scope_check_fails_before_session_io
    (.str true ⟨"i", 7, .vint 1, "", "access", 0, 9⟩ "k") ⟨[], []⟩ none
    false false true 1 false [api.Permission.admin]
    ⟨⟨"i", 7, .vint 1, "", "access", 0, 9⟩, false⟩ (by decide) (by decide)
  simpa using h

/-- C10: every successful run of `query_auth_data_from_token` returns an
`AuthData` whose resolved session is active and stored, whose session owner
id equals the resolved user id, whose user is the stored row found by the
signed token subject id, whose token signature was verified under the
session secret, and whose user is active unless `allow_deactivated` was
passed. -/
theorem c10_auth_success_invariant (token : TokenStr) (db : DB) (ost : Bool)
    (rp : Option (List api.Permission)) (ad aec tou : Bool)
    (req : Option Request) (now : Int) (a : AuthData)
    (h : (query_auth_data_from_token token db ost rp ad aec tou req now).1
      = .ok a) :
    ∃ u, a.user = some u ∧ u ∈ db.users ∧ u.id = a.token.get_subject
      ∧ a.session.owner_id = u.id ∧ a.session.is_active = true
      ∧ a.session ∈ db.sessions ∧ a.token.signature_is_valid = true
      ∧ (ad = false → u.is_active = true) := by
  simp only [query_auth_data_from_token] at h
  split at h
  · simp at h
  rename_i ad0 tr hd
  split at h
  · simp at h
  rcases hq : _query_auth_data ad0 db ad tou with ⟨r2, tr2⟩
  rw [hq] at h
  simp only at h
  cases r2 with
  | error e => simp at h
  | ok a2 =>
    simp only [Except.ok.injEq] at h
    subst h
    have hdec := decode_token_ok token _ db rp req aec now ad0
      (by rw [hd])
    obtain ⟨u, ha2, hmem, hid, howner, hactive⟩ :=
      query_auth_data_ok ad0 db ad tou a2 tr2 hq
    subst ha2
    exact ⟨u, rfl, hmem, hid, howner, hdec.1, hdec.2.1, hdec.2.2.1, hactive⟩

/-- Witness for C10: a concrete successful authentication run. -/
theorem c10_auth_success_invariant_witness :
    ∃ u, (AuthData.mk ⟨⟨"i", 7, .vint 1, "", "access", 0, 9⟩, true⟩
          ⟨1, 7, "k", true, "d"⟩ [] (some ⟨7, "h", true⟩)).user = some u
      ∧ u ∈ (DB.mk [⟨1, 7, "k", true, "d"⟩] [⟨7, "h", true⟩]).users
      ∧ u.id = (AuthData.mk ⟨⟨"i", 7, .vint 1, "", "access", 0, 9⟩, true⟩
          ⟨1, 7, "k", true, "d"⟩ [] (some ⟨7, "h", true⟩)).token.get_subject
      ∧ (AuthData.mk ⟨⟨"i", 7, .vint 1, "", "access", 0, 9⟩, true⟩
          ⟨1, 7, "k", true, "d"⟩ []
          (some ⟨7, "h", true⟩)).session.owner_id = u.id
      ∧ (AuthData.mk ⟨⟨"i", 7, .vint 1, "", "access", 0, 9⟩, true⟩
          ⟨1, 7, "k", true, "d"⟩ []
          (some ⟨7, "h", true⟩)).session.is_active = true
      ∧ (AuthData.mk ⟨⟨"i", 7, .vint 1, "", "access", 0, 9⟩, true⟩
          ⟨1, 7, "k", true, "d"⟩ [] (some ⟨7, "h", true⟩)).session
          ∈ (DB.mk [⟨1, 7, "k", true, "d"⟩] [⟨7, "h", true⟩]).sessions
      ∧ (AuthData.mk ⟨⟨"i", 7, .vint 1, "", "access", 0, 9⟩, true⟩
          ⟨1, 7, "k", true, "d"⟩ []
          (some ⟨7, "h", true⟩)).token.signature_is_valid = true
      ∧ (false = false → u.is_active = true) := by
  exact c10_auth_success_invariant
    (.str true ⟨"i", 7, .vint 1, "", "access", 0, 9⟩ "k")
    (DB.mk [⟨1, 7, "k", true, "d"⟩] [⟨7, "h", true⟩]) false none false false
    true none 1
    (AuthData.mk ⟨⟨"i", 7, .vint 1, "", "access", 0, 9⟩, true⟩
      ⟨1, 7, "k", true, "d"⟩ [] (some ⟨7, "h", true⟩)) (by decide)

end Spec2Proof
